import Mathlib

/-!
Shallow embedding of `src/main.rs` of the cuda-device-query repository.

The vendor driver API (cudarc / CUDA driver) is modelled as an oracle
structure `Driver`: each field records the answer of one driver entry
point.  `Except String` models fallible calls (the `String` stands for
the debug rendering of the `DriverError`); `Option Int` models the raw
calls whose failure is observed through a non-success `CUresult`, in
which case the out-parameter keeps its initial value.

Every `println!` of the program is modelled structurally: a `Line`
constructor carries exactly the values that determine the printed text
of that line, in the order the program prints them.  Numeric rendering
(zero padding, float formatting) is not re-implemented, because no
claim depends on it; the driver-version rendering, which a claim does
depend on, is the pure-integer function `format_driver_version`.

The `cfg(target_os = "windows")` TCC/WDDM line is excluded: the claims
concern the non-Windows build, where that block is not compiled.
-/

/-- Device attribute identifiers used by the program (`CUdevice_attribute`). -/
inductive CUdevice_attribute where
  | CU_DEVICE_ATTRIBUTE_COMPUTE_CAPABILITY_MAJOR
  | CU_DEVICE_ATTRIBUTE_COMPUTE_CAPABILITY_MINOR
  | CU_DEVICE_ATTRIBUTE_MULTIPROCESSOR_COUNT
  | CU_DEVICE_ATTRIBUTE_CLOCK_RATE
  | CU_DEVICE_ATTRIBUTE_MEMORY_CLOCK_RATE
  | CU_DEVICE_ATTRIBUTE_GLOBAL_MEMORY_BUS_WIDTH
  | CU_DEVICE_ATTRIBUTE_L2_CACHE_SIZE
  | CU_DEVICE_ATTRIBUTE_MAXIMUM_TEXTURE1D_WIDTH
  | CU_DEVICE_ATTRIBUTE_MAXIMUM_TEXTURE2D_WIDTH
  | CU_DEVICE_ATTRIBUTE_MAXIMUM_TEXTURE2D_HEIGHT
  | CU_DEVICE_ATTRIBUTE_MAXIMUM_TEXTURE3D_WIDTH
  | CU_DEVICE_ATTRIBUTE_MAXIMUM_TEXTURE3D_HEIGHT
  | CU_DEVICE_ATTRIBUTE_MAXIMUM_TEXTURE3D_DEPTH
  | CU_DEVICE_ATTRIBUTE_MAXIMUM_TEXTURE1D_LAYERED_WIDTH
  | CU_DEVICE_ATTRIBUTE_MAXIMUM_TEXTURE1D_LAYERED_LAYERS
  | CU_DEVICE_ATTRIBUTE_MAXIMUM_TEXTURE2D_LAYERED_WIDTH
  | CU_DEVICE_ATTRIBUTE_MAXIMUM_TEXTURE2D_LAYERED_HEIGHT
  | CU_DEVICE_ATTRIBUTE_MAXIMUM_TEXTURE2D_LAYERED_LAYERS
  | CU_DEVICE_ATTRIBUTE_TOTAL_CONSTANT_MEMORY
  | CU_DEVICE_ATTRIBUTE_MAX_SHARED_MEMORY_PER_BLOCK
  | CU_DEVICE_ATTRIBUTE_MAX_SHARED_MEMORY_PER_MULTIPROCESSOR
  | CU_DEVICE_ATTRIBUTE_MAX_REGISTERS_PER_BLOCK
  | CU_DEVICE_ATTRIBUTE_WARP_SIZE
  | CU_DEVICE_ATTRIBUTE_MAX_THREADS_PER_MULTIPROCESSOR
  | CU_DEVICE_ATTRIBUTE_MAX_THREADS_PER_BLOCK
  | CU_DEVICE_ATTRIBUTE_MAX_BLOCK_DIM_X
  | CU_DEVICE_ATTRIBUTE_MAX_BLOCK_DIM_Y
  | CU_DEVICE_ATTRIBUTE_MAX_BLOCK_DIM_Z
  | CU_DEVICE_ATTRIBUTE_MAX_GRID_DIM_X
  | CU_DEVICE_ATTRIBUTE_MAX_GRID_DIM_Y
  | CU_DEVICE_ATTRIBUTE_MAX_GRID_DIM_Z
  | CU_DEVICE_ATTRIBUTE_MAX_PITCH
  | CU_DEVICE_ATTRIBUTE_TEXTURE_ALIGNMENT
  | CU_DEVICE_ATTRIBUTE_GPU_OVERLAP
  | CU_DEVICE_ATTRIBUTE_ASYNC_ENGINE_COUNT
  | CU_DEVICE_ATTRIBUTE_KERNEL_EXEC_TIMEOUT
  | CU_DEVICE_ATTRIBUTE_INTEGRATED
  | CU_DEVICE_ATTRIBUTE_CAN_MAP_HOST_MEMORY
  | CU_DEVICE_ATTRIBUTE_SURFACE_ALIGNMENT
  | CU_DEVICE_ATTRIBUTE_ECC_ENABLED
  | CU_DEVICE_ATTRIBUTE_UNIFIED_ADDRESSING
  | CU_DEVICE_ATTRIBUTE_MANAGED_MEMORY
  | CU_DEVICE_ATTRIBUTE_COMPUTE_PREEMPTION_SUPPORTED
  | CU_DEVICE_ATTRIBUTE_COOPERATIVE_LAUNCH
  | CU_DEVICE_ATTRIBUTE_COOPERATIVE_MULTI_DEVICE_LAUNCH
  | CU_DEVICE_ATTRIBUTE_PCI_DOMAIN_ID
  | CU_DEVICE_ATTRIBUTE_PCI_BUS_ID
  | CU_DEVICE_ATTRIBUTE_PCI_DEVICE_ID
  | CU_DEVICE_ATTRIBUTE_COMPUTE_MODE
deriving DecidableEq

/-- Oracle for the vendor driver library: one field per driver entry point
the program calls.  Device handles (`CUdevice`) are `Int` (a `c_int` in
the source).  `cuDriverGetVersion` and `cuDeviceCanAccessPeer` return
`none` when the raw call yields a non-success `CUresult`. -/
structure Driver where
  cuInit : Except String Unit
  cuDriverGetVersion : Option Int
  cuDeviceGetCount : Except String Int
  cuDeviceGet : Nat → Except String Int
  cuDeviceGetName : Int → Except String String
  cuDeviceTotalMem : Int → Except String Nat
  cuDeviceGetAttribute : Int → CUdevice_attribute → Except String Int
  cuDeviceCanAccessPeer : Int → Int → Option Int

/-- Maps SM version (major, minor) to CUDA cores per SM (`sm_to_cores`).
The source is a Rust `match` on the pair with integer-literal patterns
and or-patterns; that is exactly an ordered chain of equality tests, which
is how it is rendered here (a Lean `match` on two unbounded integer
scrutinees produces an impractically large matcher). -/
def sm_to_cores (major minor : Int) : Option Int :=
  -- Kepler
  if (major, minor) = (3, 0) ∨ (major, minor) = (3, 2) ∨
     (major, minor) = (3, 5) ∨ (major, minor) = (3, 7) then some 192
  -- Maxwell
  else if (major, minor) = (5, 0) ∨ (major, minor) = (5, 2) ∨
     (major, minor) = (5, 3) then some 128
  -- Pascal
  else if (major, minor) = (6, 0) then some 64
  else if (major, minor) = (6, 1) ∨ (major, minor) = (6, 2) then some 128
  -- Volta / Turing
  else if (major, minor) = (7, 0) ∨ (major, minor) = (7, 2) ∨
     (major, minor) = (7, 5) then some 64
  -- Ampere
  else if (major, minor) = (8, 0) then some 64
  else if (major, minor) = (8, 6) ∨ (major, minor) = (8, 7) ∨
     (major, minor) = (8, 9) then some 128
  -- Hopper / Ada Lovelace
  else if (major, minor) = (9, 0) then some 128
  -- Blackwell and beyond
  else if (major, minor) = (10, 0) ∨ (major, minor) = (10, 1) ∨
     (major, minor) = (10, 3) then some 128
  else if (major, minor) = (11, 0) then some 128
  else if (major, minor) = (12, 0) ∨ (major, minor) = (12, 1) then some 128
  else none

/-- Queries a single integer device attribute, returning 0 on failure
(`attr`, i.e. `get_attribute(dev, a).unwrap_or(0)`). -/
def attr (d : Driver) (dev : Int) (a : CUdevice_attribute) : Int :=
  match d.cuDeviceGetAttribute dev a with
  | .ok v => v
  | .error _ => 0

/-- The `driver_version` helper: `version` starts at 0; on a non-success
`CUresult` the helper returns `Ok(0)`, otherwise `Ok(version)`. -/
def driver_version (d : Driver) : Except String Int :=
  match d.cuDriverGetVersion with
  | none => .ok 0
  | some v => .ok v

/-- The `can_access_peer` helper: true exactly when the raw call succeeds
and writes a nonzero value (`result == CUDA_SUCCESS && can_access != 0`). -/
def can_access_peer (d : Driver) (dev peer : Int) : Bool :=
  match d.cuDeviceCanAccessPeer dev peer with
  | none => false
  | some v => v ≠ 0

/-- The `compute_mode_str` helper. -/
def compute_mode_str (mode : Int) : String :=
  if mode = 0 then
    "Default (multiple host threads can use ::cudaSetDevice() with device simultaneously)"
  else if mode = 1 then
    "Exclusive (only one host thread in one process is able to use ::cudaSetDevice() with this device)"
  else if mode = 2 then
    "Prohibited (no host thread can use ::cudaSetDevice() with this device)"
  else if mode = 3 then
    "Exclusive Process (many threads in one process is able to use ::cudaSetDevice() with this device)"
  else
    "Unknown"

/-- Rendering of the driver version: the program prints
`driver_ver / 1000` then `.` then `(driver_ver % 1000) / 10`, with the
Rust `i32` truncating division and remainder (`Int.tdiv` / `Int.tmod`). -/
def format_driver_version (v : Int) : String :=
  toString (v.tdiv 1000) ++ "." ++ toString ((v.tmod 1000).tdiv 10)

/-- One printed stdout line, modelled structurally: each constructor is one
`println!` of the program and carries the values that determine its text. -/
inductive Line where
  | detected (dev_count : Int)
  | noDevices
  | deviceHeader (i : Nat) (name : String)
  | driverVersionLine (ver : String)
  | capability (major minor : Int)
  | globalMem (total_mem : Nat)
  | coresKnown (mp_count cores total : Int)
  | coresUnknown (mp_count major minor : Int)
  | gpuClock (khz : Int)
  | memClock (khz : Int)
  | memBusWidth (bits : Int)
  | l2Cache (bytes : Int)
  | maxTexture (t1 t2w t2h t3w t3h t3d : Int)
  | layered1D (w layers : Int)
  | layered2D (w h layers : Int)
  | constMem (bytes : Int)
  | sharedMemPerBlock (bytes : Int)
  | sharedMemPerMP (bytes : Int)
  | regsPerBlock (regs : Int)
  | warpSize (w : Int)
  | maxThreadsPerMP (t : Int)
  | maxThreadsPerBlock (t : Int)
  | maxBlockDim (x y z : Int)
  | maxGridDim (x y z : Int)
  | maxPitch (bytes : Int)
  | textureAlignment (bytes : Int)
  | concurrentCopy (yesno : String) (engines : Int)
  | runTimeLimit (yesno : String)
  | integrated (yesno : String)
  | canMapHost (yesno : String)
  | surfaceAlign (yesno : String)
  | eccSupport (enabled : String)
  | uva (yesno : String)
  | managedMemory (yesno : String)
  | computePreemption (yesno : String)
  | coopLaunch (yesno : String)
  | coopMultiDevice (yesno : String)
  | pciIds (domain bus device : Int)
  | computeModeHeader
  | computeModeValue (mode : String)
  | blank
  | matrixHeader
  | matrixColumns (cols : List Nat)
  | matrixRow (i : Nat) (cells : List String)
  | cudaDriverFooter (ver : String)
  | resultPass
deriving DecidableEq

/-- The kind of a printed line, forgetting the queried values.  The two
shapes of the CUDA-cores line (known and unknown cores per MP) are the
same kind: they occupy the same position of the report block. -/
inductive LineKind where
  | detected
  | noDevices
  | deviceHeader
  | driverVersionLine
  | capability
  | globalMem
  | cores
  | gpuClock
  | memClock
  | memBusWidth
  | l2Cache
  | maxTexture
  | layered1D
  | layered2D
  | constMem
  | sharedMemPerBlock
  | sharedMemPerMP
  | regsPerBlock
  | warpSize
  | maxThreadsPerMP
  | maxThreadsPerBlock
  | maxBlockDim
  | maxGridDim
  | maxPitch
  | textureAlignment
  | concurrentCopy
  | runTimeLimit
  | integrated
  | canMapHost
  | surfaceAlign
  | eccSupport
  | uva
  | managedMemory
  | computePreemption
  | coopLaunch
  | coopMultiDevice
  | pciIds
  | computeModeHeader
  | computeModeValue
  | blank
  | matrixHeader
  | matrixColumns
  | matrixRow
  | cudaDriverFooter
  | resultPass
deriving DecidableEq

/-- Forget the values carried by a line, keeping its kind. -/
def Line.kind : Line → LineKind
  | .detected _ => .detected
  | .noDevices => .noDevices
  | .deviceHeader _ _ => .deviceHeader
  | .driverVersionLine _ => .driverVersionLine
  | .capability _ _ => .capability
  | .globalMem _ => .globalMem
  | .coresKnown _ _ _ => .cores
  | .coresUnknown _ _ _ => .cores
  | .gpuClock _ => .gpuClock
  | .memClock _ => .memClock
  | .memBusWidth _ => .memBusWidth
  | .l2Cache _ => .l2Cache
  | .maxTexture _ _ _ _ _ _ => .maxTexture
  | .layered1D _ _ => .layered1D
  | .layered2D _ _ _ => .layered2D
  | .constMem _ => .constMem
  | .sharedMemPerBlock _ => .sharedMemPerBlock
  | .sharedMemPerMP _ => .sharedMemPerMP
  | .regsPerBlock _ => .regsPerBlock
  | .warpSize _ => .warpSize
  | .maxThreadsPerMP _ => .maxThreadsPerMP
  | .maxThreadsPerBlock _ => .maxThreadsPerBlock
  | .maxBlockDim _ _ _ => .maxBlockDim
  | .maxGridDim _ _ _ => .maxGridDim
  | .maxPitch _ => .maxPitch
  | .textureAlignment _ => .textureAlignment
  | .concurrentCopy _ _ => .concurrentCopy
  | .runTimeLimit _ => .runTimeLimit
  | .integrated _ => .integrated
  | .canMapHost _ => .canMapHost
  | .surfaceAlign _ => .surfaceAlign
  | .eccSupport _ => .eccSupport
  | .uva _ => .uva
  | .managedMemory _ => .managedMemory
  | .computePreemption _ => .computePreemption
  | .coopLaunch _ => .coopLaunch
  | .coopMultiDevice _ => .coopMultiDevice
  | .pciIds _ _ _ => .pciIds
  | .computeModeHeader => .computeModeHeader
  | .computeModeValue _ => .computeModeValue
  | .blank => .blank
  | .matrixHeader => .matrixHeader
  | .matrixColumns _ => .matrixColumns
  | .matrixRow _ _ => .matrixRow
  | .cudaDriverFooter _ => .cudaDriverFooter
  | .resultPass => .resultPass

/-- The per-device report block printed inside the enumeration loop, for
device index `i` with handle `dev`; `driver_ver` is the version obtained
before the loop.  Queries and lines appear in source order.  The
`L2 Cache Size` line is printed only when the queried value is positive;
every other line is printed unconditionally. -/
def deviceBlock (d : Driver) (driver_ver : Int) (i : Nat) (dev : Int) : List Line :=
  let name := match d.cuDeviceGetName dev with
    | .ok s => s
    | .error _ => "Unknown"
  let total_mem := match d.cuDeviceTotalMem dev with
    | .ok m => m
    | .error _ => 0
  let major := attr d dev .CU_DEVICE_ATTRIBUTE_COMPUTE_CAPABILITY_MAJOR
  let minor := attr d dev .CU_DEVICE_ATTRIBUTE_COMPUTE_CAPABILITY_MINOR
  let mp_count := attr d dev .CU_DEVICE_ATTRIBUTE_MULTIPROCESSOR_COUNT
  let l2_cache := attr d dev .CU_DEVICE_ATTRIBUTE_L2_CACHE_SIZE
  [Line.deviceHeader i name,
   Line.driverVersionLine (format_driver_version driver_ver),
   Line.capability major minor,
   Line.globalMem total_mem,
   (match sm_to_cores major minor with
    | some cores => Line.coresKnown mp_count cores (mp_count * cores)
    | none => Line.coresUnknown mp_count major minor),
   Line.gpuClock (attr d dev .CU_DEVICE_ATTRIBUTE_CLOCK_RATE),
   Line.memClock (attr d dev .CU_DEVICE_ATTRIBUTE_MEMORY_CLOCK_RATE),
   Line.memBusWidth (attr d dev .CU_DEVICE_ATTRIBUTE_GLOBAL_MEMORY_BUS_WIDTH)]
  ++ (if l2_cache > 0 then [Line.l2Cache l2_cache] else [])
  ++ [Line.maxTexture (attr d dev .CU_DEVICE_ATTRIBUTE_MAXIMUM_TEXTURE1D_WIDTH)
        (attr d dev .CU_DEVICE_ATTRIBUTE_MAXIMUM_TEXTURE2D_WIDTH)
        (attr d dev .CU_DEVICE_ATTRIBUTE_MAXIMUM_TEXTURE2D_HEIGHT)
        (attr d dev .CU_DEVICE_ATTRIBUTE_MAXIMUM_TEXTURE3D_WIDTH)
        (attr d dev .CU_DEVICE_ATTRIBUTE_MAXIMUM_TEXTURE3D_HEIGHT)
        (attr d dev .CU_DEVICE_ATTRIBUTE_MAXIMUM_TEXTURE3D_DEPTH),
      Line.layered1D (attr d dev .CU_DEVICE_ATTRIBUTE_MAXIMUM_TEXTURE1D_LAYERED_WIDTH)
        (attr d dev .CU_DEVICE_ATTRIBUTE_MAXIMUM_TEXTURE1D_LAYERED_LAYERS),
      Line.layered2D (attr d dev .CU_DEVICE_ATTRIBUTE_MAXIMUM_TEXTURE2D_LAYERED_WIDTH)
        (attr d dev .CU_DEVICE_ATTRIBUTE_MAXIMUM_TEXTURE2D_LAYERED_HEIGHT)
        (attr d dev .CU_DEVICE_ATTRIBUTE_MAXIMUM_TEXTURE2D_LAYERED_LAYERS),
      Line.constMem (attr d dev .CU_DEVICE_ATTRIBUTE_TOTAL_CONSTANT_MEMORY),
      Line.sharedMemPerBlock (attr d dev .CU_DEVICE_ATTRIBUTE_MAX_SHARED_MEMORY_PER_BLOCK),
      Line.sharedMemPerMP (attr d dev .CU_DEVICE_ATTRIBUTE_MAX_SHARED_MEMORY_PER_MULTIPROCESSOR),
      Line.regsPerBlock (attr d dev .CU_DEVICE_ATTRIBUTE_MAX_REGISTERS_PER_BLOCK),
      Line.warpSize (attr d dev .CU_DEVICE_ATTRIBUTE_WARP_SIZE),
      Line.maxThreadsPerMP (attr d dev .CU_DEVICE_ATTRIBUTE_MAX_THREADS_PER_MULTIPROCESSOR),
      Line.maxThreadsPerBlock (attr d dev .CU_DEVICE_ATTRIBUTE_MAX_THREADS_PER_BLOCK),
      Line.maxBlockDim (attr d dev .CU_DEVICE_ATTRIBUTE_MAX_BLOCK_DIM_X)
        (attr d dev .CU_DEVICE_ATTRIBUTE_MAX_BLOCK_DIM_Y)
        (attr d dev .CU_DEVICE_ATTRIBUTE_MAX_BLOCK_DIM_Z),
      Line.maxGridDim (attr d dev .CU_DEVICE_ATTRIBUTE_MAX_GRID_DIM_X)
        (attr d dev .CU_DEVICE_ATTRIBUTE_MAX_GRID_DIM_Y)
        (attr d dev .CU_DEVICE_ATTRIBUTE_MAX_GRID_DIM_Z),
      Line.maxPitch (attr d dev .CU_DEVICE_ATTRIBUTE_MAX_PITCH),
      Line.textureAlignment (attr d dev .CU_DEVICE_ATTRIBUTE_TEXTURE_ALIGNMENT),
      Line.concurrentCopy
        (if attr d dev .CU_DEVICE_ATTRIBUTE_GPU_OVERLAP ≠ 0 then "Yes" else "No")
        (attr d dev .CU_DEVICE_ATTRIBUTE_ASYNC_ENGINE_COUNT),
      Line.runTimeLimit
        (if attr d dev .CU_DEVICE_ATTRIBUTE_KERNEL_EXEC_TIMEOUT ≠ 0 then "Yes" else "No"),
      Line.integrated
        (if attr d dev .CU_DEVICE_ATTRIBUTE_INTEGRATED ≠ 0 then "Yes" else "No"),
      Line.canMapHost
        (if attr d dev .CU_DEVICE_ATTRIBUTE_CAN_MAP_HOST_MEMORY ≠ 0 then "Yes" else "No"),
      Line.surfaceAlign
        (if attr d dev .CU_DEVICE_ATTRIBUTE_SURFACE_ALIGNMENT ≠ 0 then "Yes" else "No"),
      Line.eccSupport
        (if attr d dev .CU_DEVICE_ATTRIBUTE_ECC_ENABLED ≠ 0 then "Enabled" else "Disabled"),
      Line.uva
        (if attr d dev .CU_DEVICE_ATTRIBUTE_UNIFIED_ADDRESSING ≠ 0 then "Yes" else "No"),
      Line.managedMemory
        (if attr d dev .CU_DEVICE_ATTRIBUTE_MANAGED_MEMORY ≠ 0 then "Yes" else "No"),
      Line.computePreemption
        (if attr d dev .CU_DEVICE_ATTRIBUTE_COMPUTE_PREEMPTION_SUPPORTED ≠ 0 then "Yes" else "No"),
      Line.coopLaunch
        (if attr d dev .CU_DEVICE_ATTRIBUTE_COOPERATIVE_LAUNCH ≠ 0 then "Yes" else "No"),
      Line.coopMultiDevice
        (if attr d dev .CU_DEVICE_ATTRIBUTE_COOPERATIVE_MULTI_DEVICE_LAUNCH ≠ 0 then "Yes" else "No"),
      Line.pciIds (attr d dev .CU_DEVICE_ATTRIBUTE_PCI_DOMAIN_ID)
        (attr d dev .CU_DEVICE_ATTRIBUTE_PCI_BUS_ID)
        (attr d dev .CU_DEVICE_ATTRIBUTE_PCI_DEVICE_ID),
      Line.computeModeHeader,
      Line.computeModeValue (compute_mode_str (attr d dev .CU_DEVICE_ATTRIBUTE_COMPUTE_MODE)),
      Line.blank]

/-- State of the enumeration loop: the `devices` vector the program pushes
successfully acquired handles onto, the stdout lines printed so far, and
the stderr lines printed so far. -/
structure LoopState where
  devices : List Int
  out : List Line
  errs : List String
deriving DecidableEq

/-- One iteration of the enumeration loop at index `i`: a failed
`cuDeviceGet` prints to stderr and continues; a successful one pushes the
handle and prints the report block. -/
def loopStep (d : Driver) (driver_ver : Int) (s : LoopState) (i : Nat) : LoopState :=
  match d.cuDeviceGet i with
  | .error e =>
      { s with errs := s.errs ++ ["Failed to get device " ++ toString i ++ ": " ++ e] }
  | .ok dev =>
      { devices := s.devices ++ [dev],
        out := s.out ++ deviceBlock d driver_ver i dev,
        errs := s.errs }

/-- The whole enumeration loop `for i in 0..dev_count`. -/
def deviceLoop (d : Driver) (driver_ver : Int) (n : Nat) : LoopState :=
  (List.range n).foldl (loopStep d driver_ver) ⟨[], [], []⟩

/-- The cells of row `i` of the peer-access matrix: the inner loop over
`devices.iter().enumerate()`, printing `Yes` on the diagonal and
otherwise `Yes` or `No` from `can_access_peer`. -/
def matrixRowCells (d : Driver) (i : Nat) (dev : Int) (devices : List Int) : List String :=
  devices.enum.map (fun p =>
    if i = p.1 then "Yes"
    else if can_access_peer d dev p.2 then "Yes" else "No")

/-- The peer-to-peer matrix section: printed only when more than one
device handle was acquired. -/
def peerMatrix (d : Driver) (devices : List Int) : List Line :=
  if devices.length > 1 then
    [Line.matrixHeader, Line.matrixColumns (List.range devices.length)]
    ++ devices.enum.map (fun p => Line.matrixRow p.1 (matrixRowCells d p.1 p.2 devices))
    ++ [Line.blank]
  else []

/-- The version value used by `main`: `driver_version().unwrap_or(0)`. -/
def driver_ver_of (d : Driver) : Int :=
  match driver_version d with
  | .ok v => v
  | .error _ => 0

/-- Observable result of one program run: stdout lines, stderr lines and
the process exit status. -/
structure RunResult where
  stdout : List Line
  stderr : List String
  exitCode : Nat
deriving DecidableEq

/-- The embedding of the `main` function of the program (the name `main`
itself is reserved by Lean for an IO entry point), as a function of the
driver oracle. -/
def rust_main (d : Driver) : RunResult :=
  match d.cuInit with
  | .error e => ⟨[], ["Failed to initialize CUDA driver: " ++ e], 1⟩
  | .ok _ =>
    let driver_ver := driver_ver_of d
    match d.cuDeviceGetCount with
    | .error e => ⟨[], ["Failed to get device count: " ++ e], 1⟩
    | .ok dev_count =>
      if dev_count = 0 then
        ⟨[Line.noDevices], [], 0⟩
      else
        let s := deviceLoop d driver_ver dev_count.toNat
        ⟨[Line.detected dev_count, Line.blank]
           ++ s.out
           ++ peerMatrix d s.devices
           ++ [Line.cudaDriverFooter (format_driver_version driver_ver),
               Line.blank, Line.resultPass],
         s.errs, 0⟩

/-- A fully healthy driver: two devices, version 12020, every query
succeeds and every integer attribute is 1. -/
def okDriver : Driver where
  cuInit := .ok ()
  cuDriverGetVersion := some 12020
  cuDeviceGetCount := .ok 2
  cuDeviceGet := fun i => .ok (Int.ofNat i)
  cuDeviceGetName := fun _ => .ok "Test GPU"
  cuDeviceTotalMem := fun _ => .ok 1024
  cuDeviceGetAttribute := fun _ _ => .ok 1
  cuDeviceCanAccessPeer := fun _ _ => some 1

/-- Same driver, except that the L2 cache size query fails. -/
def l2FailDriver : Driver :=
  { okDriver with
    cuDeviceGetAttribute := fun _ a =>
      if a = .CU_DEVICE_ATTRIBUTE_L2_CACHE_SIZE then .error "query failed" else .ok 1 }

/-- Same driver, except that every attribute query fails. -/
def attrFailDriver : Driver :=
  { okDriver with cuDeviceGetAttribute := fun _ _ => .error "fail" }

/-- Same driver, except that no devices are present. -/
def zeroDriver : Driver :=
  { okDriver with cuDeviceGetCount := .ok 0 }

/-- Same driver, except that driver initialization fails. -/
def initFailDriver : Driver :=
  { okDriver with cuInit := .error "no driver" }

/-- Same driver, except that the device count cannot be retrieved. -/
def countFailDriver : Driver :=
  { okDriver with cuDeviceGetCount := .error "count failed" }

/-- Same driver, except that `cuDriverGetVersion` fails. -/
def noVerDriver : Driver :=
  { okDriver with cuDriverGetVersion := none }

/-- Same driver, except that every peer-access query fails. -/
def peerFailDriver : Driver :=
  { okDriver with cuDeviceCanAccessPeer := fun _ _ => none }

/-- Three reported devices, but acquiring the handle of device 1 fails. -/
def getFailDriver : Driver :=
  { okDriver with
    cuDeviceGetCount := .ok 3,
    cuDeviceGet := fun i => if i = 1 then .error "lost device" else .ok (Int.ofNat i) }

/-- Line kinds of the report block before the conditional L2 line. -/
def blockKindsHead : List LineKind :=
  [.deviceHeader, .driverVersionLine, .capability, .globalMem, .cores,
   .gpuClock, .memClock, .memBusWidth]

/-- Line kinds of the report block after the conditional L2 line. -/
def blockKindsTail : List LineKind :=
  [.maxTexture, .layered1D, .layered2D, .constMem, .sharedMemPerBlock,
   .sharedMemPerMP, .regsPerBlock, .warpSize, .maxThreadsPerMP,
   .maxThreadsPerBlock, .maxBlockDim, .maxGridDim, .maxPitch,
   .textureAlignment, .concurrentCopy, .runTimeLimit, .integrated,
   .canMapHost, .surfaceAlign, .eccSupport, .uva, .managedMemory,
   .computePreemption, .coopLaunch, .coopMultiDevice, .pciIds,
   .computeModeHeader, .computeModeValue, .blank]

lemma enum_map_getD {α β : Type} (l : List α) (x : α) (f : Nat → α → β) :
    l.enum.map (fun p => f p.1 p.2) = (List.range l.length).map (fun i => f i (l.getD i x)) := by
  apply List.ext_getElem
  · simp
  · intro i h1 h2
    have hl : i < l.length := by simpa using h1
    simp [List.getElem_enum, List.getElem_range, List.getD_eq_getElem,
      List.getElem?_eq_getElem hl]

lemma deviceBlock_kinds (d : Driver) (v : Int) (i : Nat) (dev : Int) :
    (deviceBlock d v i dev).map Line.kind =
      blockKindsHead
      ++ (if 0 < attr d dev .CU_DEVICE_ATTRIBUTE_L2_CACHE_SIZE then [LineKind.l2Cache] else [])
      ++ blockKindsTail := by
  by_cases h2 : 0 < attr d dev .CU_DEVICE_ATTRIBUTE_L2_CACHE_SIZE <;>
    cases h : sm_to_cores (attr d dev .CU_DEVICE_ATTRIBUTE_COMPUTE_CAPABILITY_MAJOR)
        (attr d dev .CU_DEVICE_ATTRIBUTE_COMPUTE_CAPABILITY_MINOR) <;>
      simp [deviceBlock, h, h2, Line.kind, blockKindsHead, blockKindsTail]

lemma deviceLoop_foldl (d : Driver) (v : Int) (l : List Nat) (s : LoopState) :
    l.foldl (loopStep d v) s =
      ⟨s.devices ++ l.filterMap (fun i => (d.cuDeviceGet i).toOption),
       s.out ++ l.flatMap (fun i =>
         match d.cuDeviceGet i with
         | .ok dev => deviceBlock d v i dev
         | .error _ => []),
       s.errs ++ l.filterMap (fun i =>
         match d.cuDeviceGet i with
         | .ok _ => none
         | .error e => some ("Failed to get device " ++ toString i ++ ": " ++ e))⟩ := by
  induction l generalizing s with
  | nil => simp
  | cons a l ih =>
    rw [List.foldl_cons, ih]
    cases h : d.cuDeviceGet a <;>
      simp [loopStep, h, Except.toOption]

lemma deviceLoop_eq (d : Driver) (v : Int) (n : Nat) :
    deviceLoop d v n =
      ⟨(List.range n).filterMap (fun i => (d.cuDeviceGet i).toOption),
       (List.range n).flatMap (fun i =>
         match d.cuDeviceGet i with
         | .ok dev => deviceBlock d v i dev
         | .error _ => []),
       (List.range n).filterMap (fun i =>
         match d.cuDeviceGet i with
         | .ok _ => none
         | .error e => some ("Failed to get device " ++ toString i ++ ": " ++ e))⟩ := by
  have h := deviceLoop_foldl d v (List.range n) ⟨[], [], []⟩
  simpa [deviceLoop] using h

lemma matrixRowCells_eq (d : Driver) (i : Nat) (dev : Int) (devices : List Int) :
    matrixRowCells d i dev devices =
      (List.range devices.length).map (fun j =>
        if i = j then "Yes"
        else if can_access_peer d dev (devices.getD j 0) then "Yes" else "No") := by
  exact enum_map_getD devices 0 (fun j peer =>
    if i = j then "Yes" else if can_access_peer d dev peer then "Yes" else "No")

lemma peerMatrix_pos (d : Driver) (devices : List Int) (h : 1 < devices.length) :
    peerMatrix d devices =
      [Line.matrixHeader, Line.matrixColumns (List.range devices.length)]
      ++ (List.range devices.length).map (fun i =>
           Line.matrixRow i (matrixRowCells d i (devices.getD i 0) devices))
      ++ [Line.blank] := by
  rw [peerMatrix, if_pos h,
    enum_map_getD devices 0 (fun i dev => Line.matrixRow i (matrixRowCells d i dev devices))]

lemma rust_main_ok (d : Driver) (n : Int) (hi : d.cuInit = .ok ())
    (hc : d.cuDeviceGetCount = .ok n) (hn : ¬ n = 0) :
    rust_main d =
      ⟨[Line.detected n, Line.blank]
         ++ (deviceLoop d (driver_ver_of d) n.toNat).out
         ++ peerMatrix d (deviceLoop d (driver_ver_of d) n.toNat).devices
         ++ [Line.cudaDriverFooter (format_driver_version (driver_ver_of d)),
             Line.blank, Line.resultPass],
       (deviceLoop d (driver_ver_of d) n.toNat).errs, 0⟩ := by
  simp [rust_main, hi, hc, hn]

lemma driver_ver_of_some (d : Driver) (V : Int) (hv : d.cuDriverGetVersion = some V) :
    driver_ver_of d = V := by
  simp [driver_ver_of, driver_version, hv]

/-- The (major, minor) to cores-per-multiprocessor lookup table, as
documented in the source comments of `sm_to_cores`. -/
def coresTable : List ((Int × Int) × Int) :=
  [((3, 0), 192), ((3, 2), 192), ((3, 5), 192), ((3, 7), 192),
   ((5, 0), 128), ((5, 2), 128), ((5, 3), 128),
   ((6, 0), 64), ((6, 1), 128), ((6, 2), 128),
   ((7, 0), 64), ((7, 2), 64), ((7, 5), 64),
   ((8, 0), 64), ((8, 6), 128), ((8, 7), 128), ((8, 9), 128),
   ((9, 0), 128),
   ((10, 0), 128), ((10, 1), 128), ((10, 3), 128),
   ((11, 0), 128),
   ((12, 0), 128), ((12, 1), 128)]

/-- Claim C1, counterexample: with every query succeeding (L2 cache size 1)
the report block has one more line than with the L2 cache query failing:
the `L2 Cache Size` line is omitted when its query fails, so the block
does not contain the same set of lines as on success. -/
theorem l2_line_omitted_on_failure :
    (deviceBlock l2FailDriver 12020 0 0).length ≠ (deviceBlock okDriver 12020 0 0).length := by
  decide

/-- Claim C1 (amended): for every device and every pattern of query
failures, the report block consists of the same fixed sequence of lines,
with default values substituted for failed queries, except for the
`L2 Cache Size` line, which is printed exactly when the queried value is
positive — so that line, and only that line, is omitted when its query
fails or returns its default 0. -/
theorem device_block_lines_complete (d : Driver) (v : Int) (i : Nat) (dev : Int) :
    (deviceBlock d v i dev).map Line.kind =
      blockKindsHead
      ++ (if 0 < attr d dev .CU_DEVICE_ATTRIBUTE_L2_CACHE_SIZE then [LineKind.l2Cache] else [])
      ++ blockKindsTail :=
  deviceBlock_kinds d v i dev

/-- Claim C2: for every (major, minor) pair listed in the static lookup
table, `sm_to_cores` returns the documented cores-per-multiprocessor
constant; for every pair not in the table, it returns `none`. -/
theorem sm_to_cores_table_spec :
    (∀ p ∈ coresTable, sm_to_cores p.1.1 p.1.2 = some p.2) ∧
    (∀ major minor : Int, (major, minor) ∉ coresTable.map Prod.fst →
      sm_to_cores major minor = none) := by
  constructor
  · decide
  · intro m n h
    have hq : ∀ q ∈ coresTable.map Prod.fst, ¬ (m, n) = q := fun q hmem e => h (e ▸ hmem)
    unfold sm_to_cores
    rw [if_neg (by push_neg; exact ⟨hq _ (by decide), hq _ (by decide), hq _ (by decide), hq _ (by decide)⟩),
        if_neg (by push_neg; exact ⟨hq _ (by decide), hq _ (by decide), hq _ (by decide)⟩),
        if_neg (hq _ (by decide)),
        if_neg (by push_neg; exact ⟨hq _ (by decide), hq _ (by decide)⟩),
        if_neg (by push_neg; exact ⟨hq _ (by decide), hq _ (by decide), hq _ (by decide)⟩),
        if_neg (hq _ (by decide)),
        if_neg (by push_neg; exact ⟨hq _ (by decide), hq _ (by decide), hq _ (by decide)⟩),
        if_neg (hq _ (by decide)),
        if_neg (by push_neg; exact ⟨hq _ (by decide), hq _ (by decide), hq _ (by decide)⟩),
        if_neg (hq _ (by decide)),
        if_neg (by push_neg; exact ⟨hq _ (by decide), hq _ (by decide)⟩)]

/-- Witness for claim C2 at the pairs (7, 5) and (4, 0). -/
theorem sm_to_cores_table_spec_witness :
    sm_to_cores 7 5 = some 64 ∧ sm_to_cores 4 0 = none :=
  ⟨sm_to_cores_table_spec.1 ((7, 5), 64) (by decide),
   sm_to_cores_table_spec.2 4 0 (by decide)⟩

/-- Claim C4: the attribute helper returns the driver value when the query
succeeds and 0 when it fails; attribute outcomes never affect which
devices get enumerated, and the report block always contains all of its
unconditional lines (only the value-conditional L2 line varies). -/
theorem attr_default_spec (d : Driver) (dev : Int) (a : CUdevice_attribute) :
    (∀ v, d.cuDeviceGetAttribute dev a = .ok v → attr d dev a = v) ∧
    (∀ e, d.cuDeviceGetAttribute dev a = .error e → attr d dev a = 0) ∧
    (∀ (f : Int → CUdevice_attribute → Except String Int) (v : Int) (n : Nat),
      (deviceLoop { d with cuDeviceGetAttribute := f } v n).devices =
        (deviceLoop d v n).devices) ∧
    (∀ (v : Int) (i : Nat),
      (deviceBlock d v i dev).map Line.kind =
        blockKindsHead
        ++ (if 0 < attr d dev .CU_DEVICE_ATTRIBUTE_L2_CACHE_SIZE then [LineKind.l2Cache] else [])
        ++ blockKindsTail) := by
  refine ⟨?_, ?_, ?_, ?_⟩
  · intro v h; simp [attr, h]
  · intro e h; simp [attr, h]
  · intro f v n
    simp [deviceLoop_eq]
  · intro v i
    exact deviceBlock_kinds d v i dev

/-- Witness for claim C4: a driver whose attribute queries all fail still
yields the default 0. -/
theorem attr_default_spec_witness :
    attr attrFailDriver 0 .CU_DEVICE_ATTRIBUTE_WARP_SIZE = 0 :=
  (attr_default_spec attrFailDriver 0 .CU_DEVICE_ATTRIBUTE_WARP_SIZE).2.1 "fail" rfl

/-- Claim C5: with a device count of zero the program prints exactly the
no-devices message, no per-device section, no matrix, and exits 0. -/
theorem no_devices_spec (d : Driver) (hi : d.cuInit = .ok ())
    (hc : d.cuDeviceGetCount = .ok 0) :
    rust_main d = ⟨[Line.noDevices], [], 0⟩ ∧
    (∀ i name, Line.deviceHeader i name ∉ (rust_main d).stdout) ∧
    Line.matrixHeader ∉ (rust_main d).stdout ∧
    (rust_main d).exitCode = 0 := by
  have h : rust_main d = ⟨[Line.noDevices], [], 0⟩ := by simp [rust_main, hi, hc]
  refine ⟨h, ?_, ?_, ?_⟩ <;> simp [h]

/-- Witness for claim C5 at a concrete zero-device driver. -/
theorem no_devices_spec_witness :
    rust_main zeroDriver = ⟨[Line.noDevices], [], 0⟩ :=
  (no_devices_spec zeroDriver rfl rfl).1

/-- Claim C9: the driver-version helper is total in `Ok`: it never returns
an error (so the `unwrap_or(0)` fallback of the caller is unreachable),
and on a failed raw call it returns `Ok(0)`, which prints as `0.0`. -/
theorem driver_version_total (d : Driver) :
    (∃ v, driver_version d = .ok v ∧ driver_ver_of d = v) ∧
    (∀ e, driver_version d ≠ .error e) ∧
    (d.cuDriverGetVersion = none →
      driver_version d = .ok 0 ∧ format_driver_version 0 = "0.0") := by
  refine ⟨?_, ?_, ?_⟩
  · rcases hv : d.cuDriverGetVersion with _ | v
    · exact ⟨0, by simp [driver_version, hv], by simp [driver_ver_of, driver_version, hv]⟩
    · exact ⟨v, by simp [driver_version, hv], by simp [driver_ver_of, driver_version, hv]⟩
  · intro e
    rcases hv : d.cuDriverGetVersion with _ | v <;> simp [driver_version, hv]
  · intro hv
    exact ⟨by simp [driver_version, hv], by decide⟩

/-- Witness for claim C9 at a driver whose version query fails. -/
theorem driver_version_total_witness :
    driver_version noVerDriver = .ok 0 ∧ format_driver_version 0 = "0.0" :=
  (driver_version_total noVerDriver).2.2 rfl

/-- Claim C3: for `devices` the list of enumerated handles, the matrix is
printed exactly when more than one handle exists, and then it is the
header, the column indices, and one row per device with one cell per
device: `Yes` on the diagonal, and otherwise `Yes` exactly when
`can_access_peer` reports access of device i to device j. -/
theorem peer_matrix_spec (d : Driver) (devices : List Int) :
    (peerMatrix d devices = [] ↔ devices.length ≤ 1) ∧
    (1 < devices.length →
      peerMatrix d devices =
        [Line.matrixHeader, Line.matrixColumns (List.range devices.length)]
        ++ (List.range devices.length).map (fun i =>
             Line.matrixRow i ((List.range devices.length).map (fun j =>
               if i = j then "Yes"
               else if can_access_peer d (devices.getD i 0) (devices.getD j 0)
               then "Yes" else "No")))
        ++ [Line.blank]) := by
  constructor
  · constructor
    · intro h
      by_contra hlen
      push_neg at hlen
      rw [peerMatrix, if_pos hlen] at h
      simp at h
    · intro h
      rw [peerMatrix, if_neg (by omega)]
  · intro h
    rw [peerMatrix_pos d devices h]
    simp [matrixRowCells_eq]

/-- Witness for claim C3 at a healthy two-device driver. -/
theorem peer_matrix_spec_witness :
    peerMatrix okDriver [0, 1] =
      [Line.matrixHeader, Line.matrixColumns (List.range 2)]
      ++ (List.range 2).map (fun i =>
           Line.matrixRow i ((List.range 2).map (fun j =>
             if i = j then "Yes"
             else if can_access_peer okDriver (([0, 1] : List Int).getD i 0)
                 (([0, 1] : List Int).getD j 0) then "Yes" else "No")))
      ++ [Line.blank] :=
  (peer_matrix_spec okDriver [0, 1]).2 (by decide)

/-- Claim C6: the program exits 1 exactly when driver initialization fails
or the device count cannot be retrieved, printing the error to stderr in
those cases, and every run exits either 0 or 1. -/
theorem exit_code_spec (d : Driver) :
    ((rust_main d).exitCode = 1 ↔
      (∃ e, d.cuInit = .error e) ∨
      (d.cuInit = .ok () ∧ ∃ e, d.cuDeviceGetCount = .error e)) ∧
    (∀ e, d.cuInit = .error e →
      (rust_main d).stderr = ["Failed to initialize CUDA driver: " ++ e]) ∧
    (∀ e, d.cuInit = .ok () → d.cuDeviceGetCount = .error e →
      (rust_main d).stderr = ["Failed to get device count: " ++ e]) ∧
    ((rust_main d).exitCode = 0 ∨ (rust_main d).exitCode = 1) := by
  rcases hi : d.cuInit with e | u
  · simp [rust_main, hi]
  · cases u
    rcases hc : d.cuDeviceGetCount with e | n
    · simp [rust_main, hi, hc]
    · by_cases hn : n = 0 <;> simp [rust_main, hi, hc, hn]

/-- Witness for claim C6 at a driver whose initialization fails. -/
theorem exit_code_spec_witness :
    (rust_main initFailDriver).exitCode = 1 ∧
    (rust_main initFailDriver).stderr = ["Failed to initialize CUDA driver: " ++ "no driver"] :=
  ⟨((exit_code_spec initFailDriver).1).mpr (Or.inl ⟨"no driver", rfl⟩),
   (exit_code_spec initFailDriver).2.1 "no driver" rfl⟩

/-- Claim C7: the driver version V is rendered as the decimal string of
V / 1000, a dot, and the decimal string of (V % 1000) / 10 (truncating
division), this string appears in the footer of every completed run and
in every report block, and 12020 renders as 12.2. -/
theorem driver_version_format_spec (d : Driver) (V n : Int)
    (hv : d.cuDriverGetVersion = some V) (hi : d.cuInit = .ok ())
    (hc : d.cuDeviceGetCount = .ok n) (hn : ¬ n = 0) :
    format_driver_version V =
      toString (V.tdiv 1000) ++ "." ++ toString ((V.tmod 1000).tdiv 10) ∧
    format_driver_version 12020 = "12.2" ∧
    Line.cudaDriverFooter (toString (V.tdiv 1000) ++ "." ++ toString ((V.tmod 1000).tdiv 10))
      ∈ (rust_main d).stdout ∧
    (∀ (i : Nat) (dev : Int),
      Line.driverVersionLine (toString (V.tdiv 1000) ++ "." ++ toString ((V.tmod 1000).tdiv 10))
        ∈ deviceBlock d V i dev) := by
  have hV : driver_ver_of d = V := driver_ver_of_some d V hv
  refine ⟨rfl, by decide, ?_, ?_⟩
  · rw [rust_main_ok d n hi hc hn, hV]
    simp [format_driver_version]
  · intro i dev
    simp [deviceBlock, format_driver_version]

/-- Witness for claim C7 at the healthy driver reporting version 12020. -/
theorem driver_version_format_spec_witness :
    format_driver_version 12020 = "12.2" ∧
    Line.cudaDriverFooter "12.2" ∈ (rust_main okDriver).stdout := by
  have h := driver_version_format_spec okDriver 12020 2 rfl rfl rfl (by decide)
  have e : toString ((12020 : Int).tdiv 1000) ++ "." ++
      toString (((12020 : Int).tmod 1000).tdiv 10) = "12.2" := by decide
  exact ⟨h.2.1, by rw [← e]; exact h.2.2.1⟩

/-- Claim C8: a failed peer-access query renders as `No`: the helper
returns false, the corresponding off-diagonal cell is `No`, and the row
still has one cell for every device (the failure aborts nothing). -/
theorem peer_failure_is_no (d : Driver) (dev peer : Int)
    (h : d.cuDeviceCanAccessPeer dev peer = none) :
    can_access_peer d dev peer = false ∧
    (∀ (devices : List Int) (i j : Nat), j < devices.length → i ≠ j →
      devices.getD j 0 = peer →
      (matrixRowCells d i dev devices).getD j "" = "No") ∧
    (∀ (devices : List Int) (i : Nat) (dv : Int),
      (matrixRowCells d i dv devices).length = devices.length) := by
  have hca : can_access_peer d dev peer = false := by simp [can_access_peer, h]
  refine ⟨hca, ?_, ?_⟩
  · intro devices i j hj hij hpeer
    rw [matrixRowCells_eq]
    rw [List.getD_eq_getElem _ _ (by simpa using hj)]
    have hj2 : devices[j]? = some devices[j] := List.getElem?_eq_getElem hj
    have hp2 : devices[j] = peer := by rwa [List.getD_eq_getElem _ _ hj] at hpeer
    simp [List.getElem_range, hij, hj2, hp2, hca]
  · intro devices i dv
    simp [matrixRowCells]

/-- Witness for claim C8 at a two-device driver whose peer queries fail. -/
theorem peer_failure_is_no_witness :
    can_access_peer peerFailDriver 0 1 = false ∧
    (matrixRowCells peerFailDriver 0 0 [0, 1]).getD 1 "" = "No" := by
  have h := peer_failure_is_no peerFailDriver 0 1 rfl
  exact ⟨h.1, h.2.1 [0, 1] 0 1 (by decide) (by decide) rfl⟩

lemma countP_map_const_true {α β : Type} (l : List α) (f : α → β) (p : β → Bool)
    (h : ∀ a, p (f a) = true) : (l.map f).countP p = l.length := by
  induction l with
  | nil => simp
  | cons a t ih => simp [List.countP_cons, h, ih]

lemma getLast?_run_shape {α : Type} (A B C : List α) (x y z : α) :
    (A ++ B ++ C ++ [x, y, z]).getLast? = some z := by
  rw [List.getLast?_append]
  rfl

lemma peerMatrix_row_count (d : Driver) (devices : List Int) :
    (peerMatrix d devices).countP (fun l => decide (l.kind = LineKind.matrixRow)) =
      if 1 < devices.length then devices.length else 0 := by
  by_cases h : 1 < devices.length
  · rw [peerMatrix_pos d devices h, if_pos h, List.countP_append, List.countP_append]
    have h1 : ([Line.matrixHeader, Line.matrixColumns (List.range devices.length)]).countP
        (fun l => decide (l.kind = LineKind.matrixRow)) = 0 := by
      simp [List.countP_cons, List.countP_nil, Line.kind]
    have h2 : (([Line.blank] : List Line)).countP
        (fun l => decide (l.kind = LineKind.matrixRow)) = 0 := by
      simp [List.countP_cons, List.countP_nil, Line.kind]
    have h3 : ((List.range devices.length).map (fun i =>
          Line.matrixRow i (matrixRowCells d i (devices.getD i 0) devices))).countP
        (fun l => decide (l.kind = LineKind.matrixRow)) = devices.length := by
      rw [countP_map_const_true (List.range devices.length) _ _ (fun a => rfl),
          List.length_range]
    rw [h1, h2, h3]
    omega
  · rw [peerMatrix, if_neg h, if_neg h]
    simp

/-- Claim C10: a failed `cuDeviceGet` at index i skips that device (no
block is printed for it, an empty contribution in the concatenation) and
enumeration continues with the next index; the matrix is over the
successfully acquired handles only, so its dimension is their number,
which may be smaller than the reported count; and the run still ends in
`Result = PASS` with exit status 0. -/
theorem skipped_device_spec (d : Driver) (n : Int) (hi : d.cuInit = .ok ())
    (hc : d.cuDeviceGetCount = .ok n) (hn : ¬ n = 0) :
    (deviceLoop d (driver_ver_of d) n.toNat).devices =
      (List.range n.toNat).filterMap (fun i => (d.cuDeviceGet i).toOption) ∧
    (rust_main d).stdout =
      [Line.detected n, Line.blank]
      ++ (List.range n.toNat).flatMap (fun i =>
            match d.cuDeviceGet i with
            | .ok dev => deviceBlock d (driver_ver_of d) i dev
            | .error _ => [])
      ++ peerMatrix d ((List.range n.toNat).filterMap (fun i => (d.cuDeviceGet i).toOption))
      ++ [Line.cudaDriverFooter (format_driver_version (driver_ver_of d)),
          Line.blank, Line.resultPass] ∧
    ((peerMatrix d ((List.range n.toNat).filterMap (fun i => (d.cuDeviceGet i).toOption))).countP
        (fun l => decide (l.kind = LineKind.matrixRow)) =
      if 1 < ((List.range n.toNat).filterMap (fun i => (d.cuDeviceGet i).toOption)).length
      then ((List.range n.toNat).filterMap (fun i => (d.cuDeviceGet i).toOption)).length
      else 0) ∧
    (rust_main d).exitCode = 0 ∧
    (rust_main d).stdout.getLast? = some Line.resultPass := by
  have hrm := rust_main_ok d n hi hc hn
  have hdl := deviceLoop_eq d (driver_ver_of d) n.toNat
  refine ⟨by rw [hdl], ?_, peerMatrix_row_count d _, by rw [hrm], ?_⟩
  · rw [hrm, hdl]
  · rw [hrm]
    dsimp only
    exact getLast?_run_shape _ _ _ _ _ _

/-- Witness for claim C10: three reported devices with device 1 failing to
open: handles 0 and 2 are acquired, the run exits 0 and ends in PASS. -/
theorem skipped_device_spec_witness :
    (deviceLoop getFailDriver (driver_ver_of getFailDriver) ((3 : Int)).toNat).devices = [0, 2] ∧
    (rust_main getFailDriver).exitCode = 0 ∧
    (rust_main getFailDriver).stdout.getLast? = some Line.resultPass := by
  have h := skipped_device_spec getFailDriver 3 rfl rfl (by decide)
  exact ⟨h.1.trans (by decide), h.2.2.2.1, h.2.2.2.2⟩
